import Mathlib

/-!
Verification of the sshca certificate-issuance pipeline (src/main.rs).

The program resolves a CA public key from a remote key-management service
(`Key::get`), prints a CA trust line (`Display for Key`), or builds and signs
a 24-hour SSH user certificate (`Key::sign_path`), delegating the raw
signature to the remote service (`SSHCertificateSigner for Key`) and writing
the finished certificate next to the subject key (`cert_path`).

Remote-service calls, the system clock, and file loading are modelled as
explicit parameters; the single file write performed on success is returned
as data (path and contents).  Machine integers (u64 timestamps) are modelled
as Nat with an explicit reduction modulo 2 ^ 64 at the one place the source
performs u64 arithmetic (`now + 86400`).  Alongside each result we thread a
Nat counting how many times the signing callback was invoked.
-/

namespace Sshca

/-- Byte strings (Rust `Vec<u8>` / `&[u8]`) as lists of naturals below 256. -/
abbrev Bytes := List Nat

/-- Error taxonomy of the pipeline.  In the source every failure is an
`anyhow::Error` built from a context string; we keep one constructor per
distinct failure site. -/
inductive Err where
  | transportError
  | missingField (field : String)
  | encodingError
  | unsupportedAlgorithm
  | clockError
  | signingFailure
  | outputPathError
  | keyLoadError
deriving DecidableEq, Repr

/-- `aws_sdk_kms::types::SigningAlgorithmSpec`, restricted to the single
variant the program uses. -/
inductive SigningAlgorithmSpec where
  | rsassaPkcs1V15Sha512
deriving DecidableEq, Repr

/-- `sshcerts::ssh::RsaPublicKey`: raw big-endian bytes of the public
exponent `e` and the modulus `n`. -/
structure RsaPublicKey where
  e : Bytes
  n : Bytes
deriving DecidableEq, Repr

/-- `sshcerts::ssh::PublicKeyKind`, restricted to the kinds the pipeline can
meet: the CA key is RSA, the subject key may be Ed25519. -/
inductive PublicKeyKind where
  | rsa (key : RsaPublicKey)
  | ed25519 (key : Bytes)
deriving DecidableEq, Repr

/-- `sshcerts::PublicKey`: a key type name, the algorithm-tagged material and
an optional comment. -/
structure PublicKey where
  key_type : String
  kind : PublicKeyKind
  comment : Option String
deriving DecidableEq, Repr

/-- The CA key handle (`struct Key` in the source).  The AWS client field is
dropped: every remote operation is passed in explicitly where it is used. -/
structure Key where
  public_key : PublicKey
  signing_algorithm : SigningAlgorithmSpec
  user : String
deriving DecidableEq, Repr

/-- `Key::key_id` reads `self.public_key.comment.as_ref().unwrap()`; the
`unwrap` is modelled by returning the comment as an `Option` (a `none` result
corresponds to the panic). -/
def Key.key_id (k : Key) : Option String :=
  k.public_key.comment

/-! ## Big-endian length-prefixed encoding (SSH wire primitives) -/

/-- Four big-endian bytes of a 32-bit value. -/
def be32 (n : Nat) : Bytes :=
  [n / 2 ^ 24 % 256, n / 2 ^ 16 % 256, n / 2 ^ 8 % 256, n % 256]

/-- Eight big-endian bytes of a 64-bit value. -/
def be64 (n : Nat) : Bytes :=
  be32 (n / 2 ^ 32 % 2 ^ 32) ++ be32 (n % 2 ^ 32)

/-- An SSH `string` field: 4-byte big-endian length, then the bytes. -/
def lenBytes (bs : Bytes) : Bytes :=
  be32 bs.length ++ bs

/-- Bytes of an ASCII string (code points of its characters). -/
def strB (s : String) : Bytes :=
  s.data.map Char.toNat

/-- Modelled from the spec: the SignatureEnvelopeEncoder realised by the
external `sshcerts::utils::format_signature_for_ssh` helper.  Output layout:
4-byte big-endian length of the algorithm name, the name bytes, 4-byte
big-endian length of the raw signature, the signature bytes. -/
def encode (name : Bytes) (sig : Bytes) : Bytes :=
  lenBytes name ++ lenBytes sig

/-- Read one 4-byte big-endian length from the front of a byte string. -/
def readBe32 : Bytes → Option (Nat × Bytes)
  | b0 :: b1 :: b2 :: b3 :: rest => some (((b0 * 256 + b1) * 256 + b2) * 256 + b3, rest)
  | _ => none

/-- Parse one length-prefixed field from the front of a byte string. -/
def readField (bs : Bytes) : Option (Bytes × Bytes) :=
  match readBe32 bs with
  | none => none
  | some (n, rest) =>
      if n ≤ rest.length then some (rest.take n, rest.drop n) else none

/-- Parse the two length-prefixed fields of a signature envelope, requiring
that no bytes remain. -/
def parseEnvelope (bs : Bytes) : Option (Bytes × Bytes) :=
  match readField bs with
  | none => none
  | some (name, rest) =>
      match readField rest with
      | none => none
      | some (sig, rest2) => if rest2 = [] then some (name, sig) else none

theorem readBe32_be32_append (n : Nat) (rest : Bytes) (h : n < 2 ^ 32) :
    readBe32 (be32 n ++ rest) = some (n, rest) := by
  simp only [be32, readBe32, List.cons_append, List.nil_append, Option.some.injEq,
    Prod.mk.injEq]
  constructor
  · omega
  · trivial

theorem readField_lenBytes_append (bs rest : Bytes) (h : bs.length < 2 ^ 32) :
    readField (lenBytes bs ++ rest) = some (bs, rest) := by
  simp only [readField, lenBytes, List.append_assoc, readBe32_be32_append _ _ h]
  rw [if_pos (by simp)]
  rw [List.take_left, List.drop_left]

/-! ## Base64 (used by the textual key and certificate forms) -/

/-- The standard base64 alphabet. -/
def b64Alphabet : List Char :=
  "ABCDEFGHIJKLMNOPQRSTUVWXYZabcdefghijklmnopqrstuvwxyz0123456789+/".data

/-- Character for one 6-bit group. -/
def b64Char (n : Nat) : Char :=
  b64Alphabet.getD n 'A'

/-- Standard base64 encoding of a byte string, with `=` padding. -/
def base64Encode : Bytes → String
  | [] => ""
  | [a] => String.mk [b64Char (a / 4), b64Char (a % 4 * 16), '=', '=']
  | [a, b] => String.mk [b64Char (a / 4), b64Char (a % 4 * 16 + b / 16), b64Char (b % 16 * 4), '=']
  | a :: b :: c :: rest =>
      String.mk [b64Char (a / 4), b64Char (a % 4 * 16 + b / 16),
        b64Char (b % 16 * 4 + c / 64), b64Char (c % 64)] ++ base64Encode rest

/-! ## SSH wire encoding of keys and certificates -/

/-- Modelled from the spec: the SSH wire encoding of a public key (performed
by the external `sshcerts` crate): the key type name and then the
algorithm-specific fields, each length-prefixed. -/
def pubEncode (pk : PublicKey) : Bytes :=
  match pk.kind with
  | .rsa key => lenBytes (strB pk.key_type) ++ lenBytes key.e ++ lenBytes key.n
  | .ed25519 key => lenBytes (strB pk.key_type) ++ lenBytes key

/-- `sshcerts::CertType`, restricted as in the data model. -/
inductive CertType where
  | user
  | host
deriving DecidableEq, Repr

/-- Wire code of a certificate type (user = 1, host = 2). -/
def certTypeCode : CertType → Nat
  | .user => 1
  | .host => 2

/-- An SSH certificate as assembled by the pipeline.  The draft form has
`signature = []`; signing replaces it with the encoded envelope. -/
structure Certificate where
  cert_type : CertType
  key_id : String
  principals : List String
  valid_after : Nat
  valid_before : Nat
  extensions : List String
  subject_key : PublicKey
  signature_key : PublicKey
  signature : Bytes
deriving DecidableEq, Repr

/-- Modelled from the spec: `sshcerts::Certificate::standard_extensions`,
the standard accepted capability set (permit-pty and equivalents). -/
def standard_extensions : List String :=
  ["permit-X11-forwarding", "permit-agent-forwarding", "permit-port-forwarding",
   "permit-pty", "permit-user-rc"]

/-- Certificate key type name derived from the subject key type, e.g.
`ssh-ed25519-cert-v01@openssh.com`. -/
def certKeyTypeName (keyType : String) : String :=
  keyType ++ "-cert-v01@openssh.com"

/-- Modelled from the spec: the to-be-signed byte representation of a draft
certificate per the SSH certificate wire format (produced by the external
`sshcerts` crate); the `signature` field does not take part. -/
def tbsEncode (c : Certificate) : Bytes :=
  lenBytes (strB (certKeyTypeName c.subject_key.key_type))
    ++ pubEncode c.subject_key
    ++ be32 (certTypeCode c.cert_type)
    ++ lenBytes (strB c.key_id)
    ++ lenBytes (List.flatten (c.principals.map (fun p => lenBytes (strB p))))
    ++ be64 c.valid_after
    ++ be64 c.valid_before
    ++ lenBytes (List.flatten (c.extensions.map (fun e => lenBytes (strB e))))
    ++ lenBytes (pubEncode c.signature_key)

/-- Modelled from the spec: the full wire encoding of a signed certificate:
the to-be-signed bytes followed by the length-prefixed signature envelope. -/
def certEncode (c : Certificate) : Bytes :=
  tbsEncode c ++ lenBytes c.signature

/-- Modelled from the spec: the single-line textual form of a signed
certificate, `<cert-keytype> <cert-base64> <comment>`. -/
def certDisplay (c : Certificate) : String :=
  certKeyTypeName c.subject_key.key_type ++ " " ++ base64Encode (certEncode c)
    ++ " " ++ c.key_id

/-- Modelled from the spec: the textual form of a public key,
`<keytype> <base64> <comment>` (comment omitted when absent). -/
def pubKeyDisplay (pk : PublicKey) : String :=
  pk.key_type ++ " " ++ base64Encode (pubEncode pk)
    ++ (match pk.comment with | some c => " " ++ c | none => "")

/-- `Display for Key` (src/main.rs lines 120-129): the CA trust line. -/
def Key.display (k : Key) : String :=
  "cert-authority,principals=\"" ++ k.user ++ "\" " ++ pubKeyDisplay k.public_key

/-! ## The public key resolver (`Key::get`) -/

/-- The `GetPublicKey` response: both fields are optional in the remote
service model. -/
structure GetPublicKeyResponse where
  key_id : Option String
  public_key : Option Bytes
deriving DecidableEq, Repr

/-- A decoded `SubjectPublicKeyInfo`: the algorithm identifier and the raw
bytes of the subject-public-key bit string. -/
structure SpkiView where
  algorithm : String
  subject_public_key : Bytes
deriving DecidableEq, Repr

/-- The RSA algorithm object identifier (`pkcs1::ALGORITHM_ID`). -/
def rsaAlgorithmId : String := "1.2.840.113549.1.1.1"

/-- A decoded PKCS#1 `RSAPublicKey` sequence (`pkcs1::RsaPublicKey`). -/
structure Pkcs1RsaPublicKey where
  modulus : Bytes
  public_exponent : Bytes
deriving DecidableEq, Repr

/-- `Key::get` (src/main.rs lines 61-91).  The remote call and the two DER
decoders (the `spki` and `pkcs1` crates) are passed as explicit parameters;
everything after them follows the source line by line. -/
def Key.get (spkiDecode : Bytes → Except Err SpkiView)
    (pkcs1Decode : Bytes → Except Err Pkcs1RsaPublicKey)
    (response : Except Err GetPublicKeyResponse) (user : String) : Except Err Key :=
  match response with
  | .error e => .error e
  | .ok response =>
    match response.key_id with
    | none => .error (.missingField "key_id")
    | some key_id =>
      match response.public_key with
      | none => .error (.missingField "public_key")
      | some der =>
        match spkiDecode der with
        | .error e => .error e
        | .ok spki =>
          if spki.algorithm = rsaAlgorithmId then
            match pkcs1Decode spki.subject_public_key with
            | .error e => .error e
            | .ok key =>
              .ok { public_key := { key_type := "ssh-rsa",
                                    kind := .rsa { e := key.public_exponent, n := key.modulus },
                                    comment := some key_id },
                    signing_algorithm := .rsassaPkcs1V15Sha512,
                    user := user }
          else .error .unsupportedAlgorithm

/-! ## The remote signer (`SSHCertificateSigner for Key`) -/

/-- The KMS `Sign` response: the signature field is optional. -/
structure SignResponse where
  signature : Option Bytes
deriving DecidableEq, Repr

/-- The algorithm name placed in front of the raw signature, chosen from the
public key by the external helper (`rsa-sha2-512` for the RSA CA key). -/
def sigAlgName (pk : PublicKey) : Option String :=
  match pk.kind with
  | .rsa _ => some "rsa-sha2-512"
  | .ed25519 _ => some "ssh-ed25519"

/-- Modelled from the spec: `sshcerts::utils::format_signature_for_ssh`,
which passes the raw signature plus the fixed algorithm name through the
signature envelope encoder. -/
def format_signature_for_ssh (pk : PublicKey) (sig : Bytes) : Option Bytes :=
  match sigAlgName pk with
  | none => none
  | some name => some (encode (strB name) sig)

/-- The remote `Sign` call: key id, message, signing algorithm; `none`
models a transport error or service-side rejection (the `.ok()?` in the
source). -/
abbrev KmsSign := String → Bytes → SigningAlgorithmSpec → Option SignResponse

/-- `SSHCertificateSigner::sign for Key` (src/main.rs lines 131-145): invoke
the remote sign operation with the key id taken from the comment, then
format the returned raw signature for SSH.  Any failure collapses to
`none`. -/
def Key.sign (kmsSign : KmsSign) (k : Key) (data : Bytes) : Option Bytes :=
  match k.public_key.comment with
  | none => none
  | some kid =>
    match kmsSign kid data k.signing_algorithm with
    | none => none
    | some response =>
      match response.signature with
      | none => none
      | some sig => format_signature_for_ssh k.public_key sig

/-! ## Certificate construction and signing -/

/-- The clock reading: `none` models `SystemTime::now().duration_since(UNIX_EPOCH)`
failing because the current time is before the epoch; `some t` is the u64
`as_secs` value. -/
abbrev Clock := Option Nat

/-- The unsigned draft certificate assembled by the builder chain: principal
and key id are the user, validity runs from `now` to `now + 86400` (u64
arithmetic), extensions are the standard set. -/
def draftCert (ca : Key) (subject : PublicKey) (t : Nat) : Certificate :=
  { cert_type := .user,
    key_id := ca.user,
    principals := [ca.user],
    valid_after := t,
    valid_before := (t + 86400) % 2 ^ 64,
    extensions := standard_extensions,
    subject_key := subject,
    signature_key := ca.public_key,
    signature := [] }

/-- The certificate build-and-sign step of `Key::sign_path` (src/main.rs
lines 98-108): check the clock, assemble the draft, encode the to-be-signed
bytes and invoke the signer once.  Returns the result and the number of
signer invocations. -/
def build_and_sign (ca : Key) (subject : PublicKey) (now : Clock)
    (signer : Bytes → Option Bytes) : Except Err Certificate × Nat :=
  match now with
  | none => (.error .clockError, 0)
  | some t =>
    match signer (tbsEncode (draftCert ca subject t)) with
    | none => (.error .signingFailure, 1)
    | some sig => (.ok { draftCert ca subject t with signature := sig }, 1)

/-! ## Paths and the file write -/

/-- A UTF-8 path (`camino::Utf8PathBuf`): parent components and an optional
file name, enough for `file_name` and `with_file_name`. -/
structure Path where
  parent : List String
  fileName : Option String
deriving DecidableEq, Repr

/-- `str::strip_suffix` on character lists: remove the suffix when present. -/
def listDropSuffix (s suf : List Char) : Option (List Char) :=
  if suf.isSuffixOf s then some (s.take (s.length - suf.length)) else none

/-- `str::strip_suffix` on strings. -/
def dropSuffixOpt (s suf : String) : Option String :=
  (listDropSuffix s.data suf.data).map String.mk

/-- `cert_path` (src/main.rs lines 154-158): take the file name, strip a
trailing `.pub`, and append `-cert.pub` in its place. -/
def cert_path (p : Path) : Option Path :=
  (p.fileName.bind (fun name => dropSuffixOpt name ".pub")).map
    (fun name => { p with fileName := some (name ++ "-cert.pub") })

/-- `Key::sign_path` (src/main.rs lines 93-113): derive the output path,
load the subject public key, build and sign the certificate, and write the
certificate line plus a newline.  The file write is returned as data
(path, contents); any error means no write happens.  The second component
counts signer invocations. -/
def Key.sign_path (k : Key) (loadKey : Path → Except Err PublicKey) (now : Clock)
    (kmsSign : KmsSign) (p : Path) : Except Err (Path × String) × Nat :=
  match cert_path p with
  | none => (.error .outputPathError, 0)
  | some out =>
    match loadKey p with
    | .error e => (.error e, 0)
    | .ok key =>
      match build_and_sign k key now (Key.sign kmsSign k) with
      | (.error e, calls) => (.error e, calls)
      | (.ok cert, calls) => (.ok (out, certDisplay cert ++ "\n"), calls)

/-- The `sign` branch of `main` (src/main.rs lines 24-50): resolve the CA
key, then run `sign_path`; failure of the resolution aborts before any
signing. -/
def run_sign (spkiDecode : Bytes → Except Err SpkiView)
    (pkcs1Decode : Bytes → Except Err Pkcs1RsaPublicKey)
    (response : Except Err GetPublicKeyResponse) (user : String)
    (loadKey : Path → Except Err PublicKey) (now : Clock)
    (kmsSign : KmsSign) (p : Path) : Except Err (Path × String) × Nat :=
  match Key.get spkiDecode pkcs1Decode response user with
  | .error e => (.error e, 0)
  | .ok key => Key.sign_path key loadKey now kmsSign p

/-! ## Concrete example instances (used by witnesses) -/

/-- A concrete RSA `GetPublicKey` response for key id `ca-1`. -/
def exResponse : GetPublicKeyResponse :=
  { key_id := some "ca-1", public_key := some [48, 130, 1, 34] }

/-- A concrete SPKI decoder returning the RSA algorithm identifier. -/
def exSpkiDecode : Bytes → Except Err SpkiView :=
  fun _ => .ok { algorithm := rsaAlgorithmId, subject_public_key := [48, 130, 1, 10] }

/-- A concrete PKCS#1 decoder returning e = 65537 and a small modulus. -/
def exPkcs1Decode : Bytes → Except Err Pkcs1RsaPublicKey :=
  fun _ => .ok { modulus := [181, 47, 201, 13], public_exponent := [1, 0, 1] }

/-- The CA key that `Key.get` produces from the example inputs. -/
def exKey : Key :=
  { public_key := { key_type := "ssh-rsa",
                    kind := .rsa { e := [1, 0, 1], n := [181, 47, 201, 13] },
                    comment := some "ca-1" },
    signing_algorithm := .rsassaPkcs1V15Sha512,
    user := "alice" }

/-- A concrete Ed25519 subject key. -/
def exSubject : PublicKey :=
  { key_type := "ssh-ed25519", kind := .ed25519 [7, 7, 7, 7], comment := some "alice@host" }

/-- The default subject key path `~/.ssh/id_ed25519.pub`. -/
def exPath : Path :=
  { parent := ["home", "alice", ".ssh"], fileName := some "id_ed25519.pub" }

/-- The derived certificate output path. -/
def exCertPath : Path :=
  { parent := ["home", "alice", ".ssh"], fileName := some "id_ed25519-cert.pub" }

/-- A loader that returns the example subject key. -/
def exLoadKey : Path → Except Err PublicKey :=
  fun _ => .ok exSubject

/-- A remote sign operation that always returns the raw signature `[9, 9]`. -/
def exKmsSignOk : KmsSign :=
  fun _ _ _ => some { signature := some [9, 9] }

/-! ## C2: the signature envelope encoder -/

theorem readField_lenBytes (bs : Bytes) (h : bs.length < 2 ^ 32) :
    readField (lenBytes bs) = some (bs, []) := by
  have := readField_lenBytes_append bs [] h
  simpa using this

/-- C2: for non-empty `name` and `sig` (whose lengths fit the 4-byte length
fields), the envelope has length exactly `8 + len(name) + len(sig)`, is laid
out as the big-endian length of `name`, `name`, the big-endian length of
`sig`, `sig`, and parsing the two length-prefixed fields back out exactly
recovers `(name, sig)`. -/
theorem encode_length_and_round_trip (name sig : Bytes)
    (_hname : name ≠ []) (_hsig : sig ≠ [])
    (hnl : name.length < 2 ^ 32) (hsl : sig.length < 2 ^ 32) :
    (encode name sig).length = 8 + name.length + sig.length ∧
    encode name sig = be32 name.length ++ name ++ be32 sig.length ++ sig ∧
    parseEnvelope (encode name sig) = some (name, sig) := by
  refine ⟨?_, ?_, ?_⟩
  · simp [encode, lenBytes, be32]
    omega
  · simp [encode, lenBytes]
  · unfold parseEnvelope
    rw [show encode name sig = lenBytes name ++ lenBytes sig from rfl]
    rw [readField_lenBytes_append _ _ hnl]
    simp [readField_lenBytes _ hsl]

/-- Witness for C2 at the concrete algorithm name `rsa-sha2-512` and a
two-byte signature. -/
theorem encode_length_and_round_trip_witness :
    (encode (strB "rsa-sha2-512") [9, 9]).length = 8 + 12 + 2 ∧
    encode (strB "rsa-sha2-512") [9, 9]
      = be32 (strB "rsa-sha2-512").length ++ strB "rsa-sha2-512" ++ be32 2 ++ [9, 9] ∧
    parseEnvelope (encode (strB "rsa-sha2-512") [9, 9]) = some (strB "rsa-sha2-512", [9, 9]) :=
  encode_length_and_round_trip (strB "rsa-sha2-512") [9, 9]
    (by decide) (by decide) (by decide) (by decide)

/-! ## C1: the validity window -/

/-- C1 (amended with the no-overflow side condition): when `now + 86400`
does not overflow u64, every certificate returned by a successful run of
`build_and_sign` has `valid_after = now` and `valid_before = now + 86400`,
hence `valid_after < valid_before`. -/
theorem build_and_sign_validity_window (ca : Key) (subject : PublicKey)
    (signer : Bytes → Option Bytes) (t : Nat) (c : Certificate) (calls : Nat)
    (hov : t + 86400 < 2 ^ 64)
    (hok : build_and_sign ca subject (some t) signer = (.ok c, calls)) :
    c.valid_after = t ∧ c.valid_before = t + 86400 ∧ c.valid_after < c.valid_before := by
  rw [build_and_sign] at hok
  split at hok
  · exact absurd hok (by simp)
  · injection hok with h1 h2
    injection h1 with h1
    subst h1
    refine ⟨rfl, ?_, ?_⟩
    · simpa [draftCert] using Nat.mod_eq_of_lt hov
    · simp only [draftCert]
      rw [Nat.mod_eq_of_lt hov]
      omega

/-- Witness for C1 at `now = 1700000000` with an always-succeeding signer. -/
theorem build_and_sign_validity_window_witness :
    build_and_sign exKey exSubject (some 1700000000) (fun _ => some [9, 9])
      = (.ok { draftCert exKey exSubject 1700000000 with signature := [9, 9] }, 1) ∧
    ({ draftCert exKey exSubject 1700000000 with signature := [9, 9] } : Certificate).valid_after
        = 1700000000 ∧
    ({ draftCert exKey exSubject 1700000000 with signature := [9, 9] } : Certificate).valid_before
        = 1700000000 + 86400 ∧
    ({ draftCert exKey exSubject 1700000000 with signature := [9, 9] } : Certificate).valid_after
        < ({ draftCert exKey exSubject 1700000000 with signature := [9, 9] } : Certificate).valid_before :=
  ⟨rfl, build_and_sign_validity_window exKey exSubject (fun _ => some [9, 9]) 1700000000
    _ 1 (by norm_num) rfl⟩

/-- Counterexample to C1 as stated: at the u64 time `2 ^ 64 - 86400` the
addition `now + 86400` wraps to `0`, and `build_and_sign` returns a signed
certificate whose `valid_before` is `0 ≤ valid_after`. -/
theorem build_and_sign_wrap_counterexample :
    ((build_and_sign exKey exSubject (some (2 ^ 64 - 86400)) (fun _ => some [9, 9])).1.toOption.map
        (fun c => (c.valid_after, c.valid_before, decide (c.valid_before ≤ c.valid_after))))
      = some (2 ^ 64 - 86400, 0, true) := by
  decide

/-! ## C8: the clock check -/

/-- C8: when the current time cannot be represented as a non-negative unix
timestamp, `build_and_sign` fails with `ClockError`, issues no certificate,
and the signer is never invoked (call count zero). -/
theorem build_and_sign_clock_error (ca : Key) (subject : PublicKey)
    (signer : Bytes → Option Bytes) :
    build_and_sign ca subject none signer = (.error .clockError, 0) :=
  rfl

/-! ## C3: remote sign failure leaves no output -/

theorem key_sign_none_of_kms_failure (k : Key) (kmsSign : KmsSign) (kid : String)
    (hkid : k.public_key.comment = some kid)
    (hfail : ∀ data, kmsSign kid data k.signing_algorithm = none ∨
      ∃ r, kmsSign kid data k.signing_algorithm = some r ∧ r.signature = none)
    (data : Bytes) : Key.sign kmsSign k data = none := by
  rcases hfail data with h | ⟨r, hr, hs⟩
  · simp only [Key.sign, hkid, h]
  · simp only [Key.sign, hkid, hr, hs]

/-- C3: whenever the remote sign operation fails in any way (transport error
or service-side rejection, modelled by a `none` response, or a response with
the signature field absent), `sign_path` makes exactly one signing call (no
retry), yields `SigningFailure`, and performs no file write (the success
payload carrying the single write is absent). -/
theorem sign_path_signing_failure (k : Key) (kmsSign : KmsSign)
    (loadKey : Path → Except Err PublicKey) (t : Nat) (p out : Path)
    (spk : PublicKey) (kid : String)
    (hout : cert_path p = some out) (hload : loadKey p = .ok spk)
    (hkid : k.public_key.comment = some kid)
    (hfail : ∀ data, kmsSign kid data k.signing_algorithm = none ∨
      ∃ r, kmsSign kid data k.signing_algorithm = some r ∧ r.signature = none) :
    Key.sign_path k loadKey (some t) kmsSign p = (.error .signingFailure, 1) := by
  have hsig := key_sign_none_of_kms_failure k kmsSign kid hkid hfail
  unfold Key.sign_path
  rw [hout, hload]
  simp only [build_and_sign, hsig]

/-- Witness for C3: a remote signer that always fails at the transport level
leads to a single `SigningFailure` and no write. -/
theorem sign_path_signing_failure_witness :
    Key.sign_path exKey exLoadKey (some 1700000000) (fun _ _ _ => none) exPath
      = (.error .signingFailure, 1) :=
  sign_path_signing_failure exKey (fun _ _ _ => none) exLoadKey 1700000000 exPath
    exCertPath exSubject "ca-1" rfl rfl rfl (fun _ => Or.inl rfl)

/-! ## C4 and C5: the public key resolver -/

/-- C4: `Key.get` returns an error, never a partially-populated key: a
response lacking the key identifier or the key material yields the matching
`MissingField` error, and a decoded algorithm identifier other than the RSA
identifier yields `UnsupportedAlgorithm`. -/
theorem resolve_error_cases (spkiDecode : Bytes → Except Err SpkiView)
    (pkcs1Decode : Bytes → Except Err Pkcs1RsaPublicKey)
    (r : GetPublicKeyResponse) (user : String) :
    (r.key_id = none →
      Key.get spkiDecode pkcs1Decode (.ok r) user = .error (.missingField "key_id"))
  ∧ (∀ kid, r.key_id = some kid → r.public_key = none →
      Key.get spkiDecode pkcs1Decode (.ok r) user = .error (.missingField "public_key"))
  ∧ (∀ kid der spki, r.key_id = some kid → r.public_key = some der →
      spkiDecode der = .ok spki → spki.algorithm ≠ rsaAlgorithmId →
      Key.get spkiDecode pkcs1Decode (.ok r) user = .error .unsupportedAlgorithm) := by
  refine ⟨fun h => ?_, fun kid h1 h2 => ?_, fun kid der spki h1 h2 h3 h4 => ?_⟩
  · simp only [Key.get, h]
  · simp only [Key.get, h1, h2]
  · simp only [Key.get, h1, h2, h3, if_neg h4]

/-- A decoder returning a non-RSA algorithm identifier (id-ecPublicKey). -/
def exEcSpkiDecode : Bytes → Except Err SpkiView :=
  fun _ => .ok { algorithm := "1.2.840.10045.2.1", subject_public_key := [4, 65] }

/-- Witness for C4: the three error cases at concrete responses. -/
theorem resolve_error_cases_witness :
    Key.get exSpkiDecode exPkcs1Decode
        (.ok { key_id := none, public_key := some [48, 130, 1, 34] }) "alice"
      = .error (.missingField "key_id")
  ∧ Key.get exSpkiDecode exPkcs1Decode
        (.ok { key_id := some "ca-1", public_key := none }) "alice"
      = .error (.missingField "public_key")
  ∧ Key.get exEcSpkiDecode exPkcs1Decode (.ok exResponse) "alice"
      = .error .unsupportedAlgorithm :=
  ⟨(resolve_error_cases exSpkiDecode exPkcs1Decode _ "alice").1 rfl,
   (resolve_error_cases exSpkiDecode exPkcs1Decode _ "alice").2.1 "ca-1" rfl rfl,
   (resolve_error_cases exEcSpkiDecode exPkcs1Decode exResponse "alice").2.2
     "ca-1" [48, 130, 1, 34] { algorithm := "1.2.840.10045.2.1", subject_public_key := [4, 65] }
     rfl rfl rfl (by decide)⟩

/-- C5: for the supported RSA algorithm, `Key.get` yields an SSH public key
tagged `ssh-rsa`, whose RSA components are the modulus and public exponent
parsed from the PKCS#1 sequence in the subject-public-key bit string, whose
comment equals the resolved key id, and whose bound signing algorithm is
PKCS#1 v1.5 with SHA-512. -/
theorem resolve_rsa_fields (spkiDecode : Bytes → Except Err SpkiView)
    (pkcs1Decode : Bytes → Except Err Pkcs1RsaPublicKey)
    (r : GetPublicKeyResponse) (user kid : String) (der : Bytes)
    (spki : SpkiView) (pk1 : Pkcs1RsaPublicKey)
    (h1 : r.key_id = some kid) (h2 : r.public_key = some der)
    (h3 : spkiDecode der = .ok spki) (h4 : spki.algorithm = rsaAlgorithmId)
    (h5 : pkcs1Decode spki.subject_public_key = .ok pk1) :
    Key.get spkiDecode pkcs1Decode (.ok r) user =
      .ok { public_key := { key_type := "ssh-rsa",
                            kind := .rsa { e := pk1.public_exponent, n := pk1.modulus },
                            comment := some kid },
            signing_algorithm := .rsassaPkcs1V15Sha512,
            user := user } := by
  simp only [Key.get, h1, h2, h3, if_pos h4, h5]

/-- Witness for C5: the concrete RSA response resolves to the example key
with comment `ca-1`, components e = 65537 and the example modulus, and the
SHA-512 signing algorithm. -/
theorem resolve_rsa_fields_witness :
    Key.get exSpkiDecode exPkcs1Decode (.ok exResponse) "alice" = .ok exKey :=
  resolve_rsa_fields exSpkiDecode exPkcs1Decode exResponse "alice" "ca-1"
    [48, 130, 1, 34] { algorithm := rsaAlgorithmId, subject_public_key := [48, 130, 1, 10] }
    { modulus := [181, 47, 201, 13], public_exponent := [1, 0, 1] }
    rfl rfl rfl rfl rfl

/-! ## C6: the CA trust line -/

/-- C6: for a resolved key whose comment is the key id, the CA trust line is
byte-exactly
`cert-authority,principals="<user>" <ca-keytype> <ca-base64> <key_id>`. -/
theorem display_trust_line (k : Key) (kid : String)
    (hkid : k.public_key.comment = some kid) :
    Key.display k = "cert-authority,principals=\"" ++ k.user ++ "\" "
      ++ k.public_key.key_type ++ " " ++ base64Encode (pubEncode k.public_key)
      ++ " " ++ kid := by
  simp only [Key.display, pubKeyDisplay, hkid]
  simp [String.append_assoc]

/-- Witness for C6: the example key (key id `ca-1`, user `alice`) yields
exactly the trust line of Scenario A. -/
theorem display_trust_line_witness :
    Key.display exKey = "cert-authority,principals=\"alice\" ssh-rsa "
      ++ base64Encode (pubEncode exKey.public_key) ++ " ca-1" := by
  rw [display_trust_line exKey "ca-1" rfl]
  rfl

/-! ## C7: resolution failure happens before any sign call -/

/-- C7: when the `GetPublicKey` response omits `key_id`, the pipeline fails
during CA-key resolution with the matching `MissingField` error and the
remote sign operation is never invoked (signing call count zero). -/
theorem resolution_failure_no_sign_call (spkiDecode : Bytes → Except Err SpkiView)
    (pkcs1Decode : Bytes → Except Err Pkcs1RsaPublicKey)
    (r : GetPublicKeyResponse) (user : String)
    (loadKey : Path → Except Err PublicKey) (now : Clock)
    (kmsSign : KmsSign) (p : Path)
    (h : r.key_id = none) :
    run_sign spkiDecode pkcs1Decode (.ok r) user loadKey now kmsSign p
      = (.error (.missingField "key_id"), 0) := by
  simp only [run_sign, Key.get, h]

/-- Witness for C7 at a concrete response without `key_id`. -/
theorem resolution_failure_no_sign_call_witness :
    run_sign exSpkiDecode exPkcs1Decode
        (.ok { key_id := none, public_key := some [48, 130, 1, 34] }) "alice"
        exLoadKey (some 1700000000) exKmsSignOk exPath
      = (.error (.missingField "key_id"), 0) :=
  resolution_failure_no_sign_call exSpkiDecode exPkcs1Decode _ "alice"
    exLoadKey (some 1700000000) exKmsSignOk exPath rfl

/-! ## C9: the derived output path and the written line -/

theorem dropSuffixOpt_append (b s : String) : dropSuffixOpt (b ++ s) s = some b := by
  have h : listDropSuffix (b.data ++ s.data) s.data = some b.data := by
    unfold listDropSuffix
    rw [if_pos (by simp [List.isSuffixOf_iff_suffix])]
    congr 1
    have h1 : (b.data ++ s.data).length - s.data.length = b.data.length := by simp
    rw [h1, List.take_left]
  unfold dropSuffixOpt
  rw [show (b ++ s).data = b.data ++ s.data from rfl, h]
  rfl

theorem cert_path_eq (p : Path) (base : String)
    (hname : p.fileName = some (base ++ ".pub")) :
    cert_path p = some { p with fileName := some (base ++ "-cert.pub") } := by
  simp only [cert_path, hname, Option.some_bind, dropSuffixOpt_append, Option.map_some']

theorem key_sign_some_of_kms_ok (k : Key) (kmsSign : KmsSign) (kid : String)
    (raw : Bytes) (nm : String)
    (hkid : k.public_key.comment = some kid)
    (hnm : sigAlgName k.public_key = some nm)
    (hkms : ∀ data, kmsSign kid data k.signing_algorithm = some { signature := some raw })
    (data : Bytes) :
    Key.sign kmsSign k data = some (encode (strB nm) raw) := by
  simp only [Key.sign, hkid, hkms data, format_signature_for_ssh, hnm]

/-- C9: for a subject key path whose file name ends in `.pub`, the output
path replaces the trailing `.pub` with `-cert.pub`, and on success
`sign_path` writes to that path exactly one line
`<cert-keytype> <cert-base64> <comment>` terminated by a newline. -/
theorem sign_path_derived_output (k : Key) (kmsSign : KmsSign)
    (loadKey : Path → Except Err PublicKey) (p : Path) (base : String)
    (spk : PublicKey) (kid : String) (t : Nat) (raw : Bytes)
    (hname : p.fileName = some (base ++ ".pub"))
    (hload : loadKey p = .ok spk)
    (hkid : k.public_key.comment = some kid)
    (hkms : ∀ data, kmsSign kid data k.signing_algorithm = some { signature := some raw }) :
    cert_path p = some { p with fileName := some (base ++ "-cert.pub") } ∧
    ∃ c : Certificate,
      Key.sign_path k loadKey (some t) kmsSign p
        = (.ok ({ p with fileName := some (base ++ "-cert.pub") },
            certKeyTypeName c.subject_key.key_type ++ " " ++ base64Encode (certEncode c)
              ++ " " ++ c.key_id ++ "\n"), 1) := by
  have hcp := cert_path_eq p base hname
  refine ⟨hcp, ?_⟩
  obtain ⟨nm, hnm⟩ : ∃ nm, sigAlgName k.public_key = some nm := by
    cases h : k.public_key.kind
    · exact ⟨"rsa-sha2-512", by simp [sigAlgName, h]⟩
    · exact ⟨"ssh-ed25519", by simp [sigAlgName, h]⟩
  have hsig := key_sign_some_of_kms_ok k kmsSign kid raw nm hkid hnm hkms
  refine ⟨{ draftCert k spk t with signature := encode (strB nm) raw }, ?_⟩
  unfold Key.sign_path
  rw [hcp, hload]
  simp only [build_and_sign, hsig]
  rfl

/-- Witness for C9: the default path `id_ed25519.pub` produces
`id_ed25519-cert.pub` and one certificate line ending in a newline. -/
theorem sign_path_derived_output_witness :
    cert_path exPath = some { exPath with fileName := some ("id_ed25519" ++ "-cert.pub") } ∧
    ∃ c : Certificate,
      Key.sign_path exKey exLoadKey (some 1700000000) exKmsSignOk exPath
        = (.ok ({ exPath with fileName := some ("id_ed25519" ++ "-cert.pub") },
            certKeyTypeName c.subject_key.key_type ++ " " ++ base64Encode (certEncode c)
              ++ " " ++ c.key_id ++ "\n"), 1) :=
  sign_path_derived_output exKey exKmsSignOk exLoadKey exPath "id_ed25519" exSubject "ca-1"
    1700000000 [9, 9] rfl rfl rfl (fun _ => rfl)

/-! ## C10: the key id accessor never panics for resolved keys -/

/-- C10: every key produced by `Key.get` has its comment populated, so the
`unwrap` inside `Key::key_id` (modelled as an `Option` read) never fails on
a key reachable through the public constructor. -/
theorem key_id_present_after_get (spkiDecode : Bytes → Except Err SpkiView)
    (pkcs1Decode : Bytes → Except Err Pkcs1RsaPublicKey)
    (response : Except Err GetPublicKeyResponse) (user : String) (k : Key)
    (h : Key.get spkiDecode pkcs1Decode response user = .ok k) :
    (Key.key_id k).isSome = true := by
  unfold Key.get at h
  repeat' split at h
  all_goals
    first
      | exact Except.noConfusion h
      | (rw [← Except.ok.inj h]; rfl)

/-- Witness for C10: the example key resolves and its key id accessor
returns `some`. -/
theorem key_id_present_after_get_witness :
    (Key.key_id exKey).isSome = true :=
  key_id_present_after_get exSpkiDecode exPkcs1Decode (.ok exResponse) "alice" exKey rfl

end Sshca
